import Mathlib

/-!
Verification of the Pollaroo frontend session core: a shallow embedding of
the Session Store (file `src/frontend/src/store/auth.ts`) and the API
Gateway Client (file `src/frontend/src/lib/api.ts`).

The network is modelled as an oracle: each outbound call receives a
`FetchOutcome` describing what the single underlying `fetch` would have
produced (a parsed 2xx body, a parsed non-2xx body with its optional
`message`/`error`/`detail` fields, or a thrown exception, which also covers
a failing `response.json()`).  The browser durable storage (`localStorage`)
is an association list over string keys.  JavaScript truthiness of strings
(`""` is falsy) is modelled explicitly where the source relies on it.
-/

/-- JS truthiness of an optional string: `null`/`undefined` and `""` are falsy. -/
def jsTruthy : Option String → Bool
  | some s => !(s == "")
  | none => false

/-- JS `a || b` for an optional string `a` (absent or empty falls through) and a
string default `b`, as in `data.message || data.error || ...`. -/
def jsStrOr : Option String → String → String
  | some s, b => if s == "" then b else s
  | none, b => b

/-- The browser durable per-origin key-value storage, as an association list. -/
abbrev LocalStorage := List (String × String)

/-- `localStorage.getItem`. -/
def getItem (st : LocalStorage) (k : String) : Option String :=
  (st.find? (fun p => p.1 == k)).map (fun p => p.2)

/-- `localStorage.removeItem`. -/
def removeItem (st : LocalStorage) (k : String) : LocalStorage :=
  st.filter (fun p => !(p.1 == k))

/-- `localStorage.setItem`: the key ends up bound to exactly `v`. -/
def setItem (st : LocalStorage) (k v : String) : LocalStorage :=
  removeItem st k ++ [(k, v)]

/-- The `User` record of `lib/api.ts` (remote-owned, mirrored locally). -/
structure User where
  id : Nat
  username : String
  email : String
  first_name : String
  last_name : String
  full_name : String
  avatar : Option String
  bio : Option String
  date_joined : String
  created_at : String
  deriving Repr, DecidableEq

/-- The token pair of a successful auth response. -/
structure Tokens where
  access : String
  refresh : String
  deriving Repr, DecidableEq

/-- `AuthResponse` of `lib/api.ts`: body of a successful login/register call. -/
structure AuthResponse where
  user : User
  tokens : Tokens
  deriving Repr, DecidableEq

/-- `ApiResponse<T>` of `lib/api.ts`: the normalized result of `request`. -/
structure ApiResponse (α : Type) where
  data : Option α
  error : Option String
  deriving Repr, DecidableEq

/-- Oracle for the one `fetch` performed inside `ApiClient.request`:
either the server replied 2xx with a parsed body, or replied non-2xx with a
body carrying the optional `message`/`error`/`detail` fields, or `fetch`
(or `response.json()`) threw. -/
inductive FetchOutcome (α : Type) where
  | ok (body : α)
  | notOk (status : Nat) (message error detail : Option String)
  | throws
  deriving Repr, DecidableEq

/-- The mutable part of the `ApiClient` class: its base URL and the
in-memory copy of the bearer token. -/
structure ApiClient where
  baseURL : String
  token : Option String
  deriving Repr, DecidableEq

/-- Everything observable about one `ApiClient` endpoint call: the returned
`ApiResponse`, the client and storage states after the call, and the
`Authorization` header that was attached to the outgoing request (if any). -/
structure RequestResult (α : Type) where
  resp : ApiResponse α
  client : ApiClient
  storage : LocalStorage
  authHeader : Option String
  deriving Repr, DecidableEq

/-- Default of `process.env.NEXT_PUBLIC_API_URL`. -/
def API_BASE_URL : String := "http://localhost:8000/api"

namespace ApiClient

/-- The `ApiClient` constructor in a browser context: reads any persisted
token from durable storage. -/
def make (baseURL : String) (st : LocalStorage) : ApiClient :=
  { baseURL := baseURL, token := getItem st "access_token" }

/-- `setToken`: stores the token in memory and in durable storage. -/
def setToken (c : ApiClient) (st : LocalStorage) (t : String) :
    ApiClient × LocalStorage :=
  ({ c with token := some t }, setItem st "access_token" t)

/-- `clearToken`: removes the token from memory and from durable storage. -/
def clearToken (c : ApiClient) (st : LocalStorage) : ApiClient × LocalStorage :=
  ({ c with token := none }, removeItem st "access_token")

/-- The error message computed on a non-2xx response:
`data.message || data.error || 'An error occurred'`. -/
def requestErrorMessage (message error : Option String) : String :=
  jsStrOr message (jsStrOr error "An error occurred")

/-- The private `request` primitive.  It attaches a bearer header when the
in-memory token is truthy, returns `{ data }` on a 2xx response, a
normalized `{ error }` on a non-2xx response (from the body `message` or
`error` field, with a generic fallback), and `{ error }` with a fixed
message when `fetch` or the JSON parse throws.  It touches neither the
in-memory token nor durable storage. -/
def request {α : Type} (c : ApiClient) (st : LocalStorage)
    (o : FetchOutcome α) : RequestResult α :=
  let authHeader : Option String :=
    match c.token with
    | some t => if t == "" then none else some ("Bearer " ++ t)
    | none => none
  match o with
  | .ok body =>
      { resp := { data := some body, error := none },
        client := c, storage := st, authHeader := authHeader }
  | .notOk _ message error _ =>
      { resp := { data := none, error := some (requestErrorMessage message error) },
        client := c, storage := st, authHeader := authHeader }
  | .throws =>
      { resp := { data := none, error := some "Network error occurred" },
        client := c, storage := st, authHeader := authHeader }

/-- `register`: a bare `request` against the registration endpoint; it does
not store any returned token. -/
def register (c : ApiClient) (st : LocalStorage)
    (o : FetchOutcome AuthResponse) : RequestResult AuthResponse :=
  request c st o

/-- `login`: a `request` against the login endpoint; when
`response.data?.tokens?.access` is truthy, stores it via `setToken`. -/
def login (c : ApiClient) (st : LocalStorage)
    (o : FetchOutcome AuthResponse) : RequestResult AuthResponse :=
  let r := request c st o
  match r.resp.data with
  | some d =>
      if d.tokens.access == "" then r
      else
        let p := setToken r.client r.storage d.tokens.access
        { r with client := p.1, storage := p.2 }
  | none => r

/-- `logout`: a `request` against the logout endpoint, then `clearToken`
unconditionally. -/
def logout (c : ApiClient) (st : LocalStorage)
    (o : FetchOutcome Unit) : RequestResult Unit :=
  let r := request c st o
  let p := clearToken r.client r.storage
  { r with client := p.1, storage := p.2 }

/-- `getProfile`: a bare `request` against the profile endpoint. -/
def getProfile (c : ApiClient) (st : LocalStorage)
    (o : FetchOutcome User) : RequestResult User :=
  request c st o

/-- `updateProfile` (client side): a bare `request` against the
profile-update endpoint. -/
def updateProfile (c : ApiClient) (st : LocalStorage)
    (o : FetchOutcome User) : RequestResult User :=
  request c st o

end ApiClient

/-- The `AuthState` snapshot of `store/auth.ts`. -/
structure AuthState where
  user : Option User
  isAuthenticated : Bool
  isLoading : Bool
  error : Option String
  deriving Repr, DecidableEq

/-- The module-level initial state of the Session Store. -/
def initialAuthState : AuthState :=
  { user := none, isAuthenticated := false, isLoading := false, error := none }

/-- Shape of a JS exception as inspected by the store catch handlers
(`error?.response?.data?.error` and `error?.message`). -/
structure JsError where
  responseDataError : Option String
  message : Option String
  deriving Repr, DecidableEq

/-- Oracle for one awaited `apiClient` call made by a store operation:
either the client call runs (driven by a `FetchOutcome` for its inner
`fetch`), or the awaited call itself throws.  The client code never throws,
so the `throws` constructor only exercises the store catch branches; it is
modelled as leaving client and storage untouched. -/
inductive NetOracle (α : Type) where
  | fetch (o : FetchOutcome α)
  | throws (e : JsError)
  deriving Repr, DecidableEq

/-- The whole mutable world the session core acts on: the store snapshot,
the singleton `apiClient`, and durable storage. -/
structure World where
  auth : AuthState
  client : ApiClient
  storage : LocalStorage
  deriving Repr, DecidableEq

namespace AuthStore

/-- First mutation of `login`: `{ ...state, isLoading: true, error: null }`. -/
def loginStart (s : AuthState) : AuthState :=
  { s with isLoading := true, error := none }

/-- First mutation of `register`: same shape as `loginStart`. -/
def registerStart (s : AuthState) : AuthState :=
  { s with isLoading := true, error := none }

/-- First mutation of `logout`: `{ ...state, isLoading: true }` (the error
field is left as it was). -/
def logoutStart (s : AuthState) : AuthState :=
  { s with isLoading := true }

/-- First mutation of the with-token path of `loadUser`:
`{ ...state, isLoading: true }` (the error field is left as it was). -/
def loadUserStart (s : AuthState) : AuthState :=
  { s with isLoading := true }

/-- First mutation of `updateProfile`: same shape as `loginStart`. -/
def updateProfileStart (s : AuthState) : AuthState :=
  { s with isLoading := true, error := none }

/-- Message computed by the `login`/`register` catch handlers:
`error?.response?.data?.error || error?.message || fallback`. -/
def catchErrorMessage (e : JsError) (fallback : String) : String :=
  jsStrOr e.responseDataError (jsStrOr e.message fallback)

/-- The auth snapshot written on a successful login/register/loadUser. -/
def authSuccessState (s : AuthState) (u : User) : AuthState :=
  { s with user := some u, isAuthenticated := true,
           isLoading := false, error := none }

/-- The auth snapshot written on a failed login/register/updateProfile:
only `error` and `isLoading` change. -/
def authFailureState (s : AuthState) (msg : String) : AuthState :=
  { s with error := some msg, isLoading := false }

/-- The auth snapshot written whenever the session is torn down. -/
def authClearedState (s : AuthState) : AuthState :=
  { s with user := none, isAuthenticated := false, isLoading := false }

/-- The store `login` operation; returns the new world and the boolean
success flag. -/
def login (w : World) (o : NetOracle AuthResponse) : World × Bool :=
  let s1 := loginStart w.auth
  match o with
  | .fetch fo =>
      let r := ApiClient.login w.client w.storage fo
      match r.resp.data with
      | some d =>
          ({ auth := authSuccessState s1 d.user,
             client := r.client, storage := r.storage }, true)
      | none =>
          ({ auth := authFailureState s1 (jsStrOr r.resp.error "Login failed"),
             client := r.client, storage := r.storage }, false)
  | .throws e =>
      ({ auth := authFailureState s1 (catchErrorMessage e "Network error occurred"),
         client := w.client, storage := w.storage }, false)

/-- The store `register` operation; same contract shape as `login` but the
client endpoint stores no token. -/
def register (w : World) (o : NetOracle AuthResponse) : World × Bool :=
  let s1 := registerStart w.auth
  match o with
  | .fetch fo =>
      let r := ApiClient.register w.client w.storage fo
      match r.resp.data with
      | some d =>
          ({ auth := authSuccessState s1 d.user,
             client := r.client, storage := r.storage }, true)
      | none =>
          ({ auth := authFailureState s1 (jsStrOr r.resp.error "Registration failed"),
             client := r.client, storage := r.storage }, false)
  | .throws e =>
      ({ auth := authFailureState s1 (catchErrorMessage e "Network error occurred"),
         client := w.client, storage := w.storage }, false)

/-- The store `logout` operation: the remote call outcome is swallowed, then
the state is unconditionally reset (user and error cleared). -/
def logout (w : World) (o : NetOracle Unit) : World :=
  let s1 := logoutStart w.auth
  let p : ApiClient × LocalStorage :=
    match o with
    | .fetch fo =>
        let r := ApiClient.logout w.client w.storage fo
        (r.client, r.storage)
    | .throws _ => (w.client, w.storage)
  { auth := { authClearedState s1 with error := none },
    client := p.1, storage := p.2 }

/-- The store `loadUser` operation; also returns how many network calls were
issued.  With no truthy stored token it returns immediately; otherwise it
fetches the profile and on failure removes both token keys from durable
storage (without touching the client in-memory token). -/
def loadUser (w : World) (o : NetOracle User) : World × Nat :=
  let token := getItem w.storage "access_token"
  if jsTruthy token then
    let s1 := loadUserStart w.auth
    match o with
    | .fetch fo =>
        let r := ApiClient.getProfile w.client w.storage fo
        match r.resp.data with
        | some u =>
            ({ auth := authSuccessState s1 u,
               client := r.client, storage := r.storage }, 1)
        | none =>
            let st2 := removeItem (removeItem r.storage "access_token") "refresh_token"
            ({ auth := authClearedState s1,
               client := r.client, storage := st2 }, 1)
    | .throws e =>
        let st2 := removeItem (removeItem w.storage "access_token") "refresh_token"
        let msg := jsStrOr e.message "Failed to load user"
        ({ auth := { authClearedState s1 with error := some msg },
           client := w.client, storage := st2 }, 1)
  else
    ({ w with auth := authClearedState w.auth }, 0)

/-- The store `updateProfile` operation; on success it replaces `user` but
does not touch `isAuthenticated`. -/
def updateProfile (w : World) (o : NetOracle User) : World × Bool :=
  let s1 := updateProfileStart w.auth
  match o with
  | .fetch fo =>
      let r := ApiClient.updateProfile w.client w.storage fo
      match r.resp.data with
      | some u =>
          ({ auth := { s1 with user := some u, isLoading := false, error := none },
             client := r.client, storage := r.storage }, true)
      | none =>
          ({ auth := authFailureState s1 (jsStrOr r.resp.error "Update failed"),
             client := r.client, storage := r.storage }, false)
  | .throws _ =>
      ({ auth := authFailureState s1 "Network error occurred",
         client := w.client, storage := w.storage }, false)

/-- The store `clearError` operation. -/
def clearError (w : World) : World :=
  { w with auth := { w.auth with error := none } }

end AuthStore

/-- One Session Store operation together with its network oracle. -/
inductive Op where
  | login (o : NetOracle AuthResponse)
  | register (o : NetOracle AuthResponse)
  | logout (o : NetOracle Unit)
  | loadUser (o : NetOracle User)
  | updateProfile (o : NetOracle User)
  | clearError
  deriving Repr, DecidableEq

/-- Apply one operation to the world (discarding return values). -/
def step (w : World) : Op → World
  | .login o => (AuthStore.login w o).1
  | .register o => (AuthStore.register w o).1
  | .logout o => AuthStore.logout w o
  | .loadUser o => (AuthStore.loadUser w o).1
  | .updateProfile o => (AuthStore.updateProfile w o).1
  | .clearError => AuthStore.clearError w

/-- Run a sequence of operations. -/
def run (w : World) : List Op → World
  | [] => w
  | op :: rest => run (step w op) rest

/-- World at process start: default store snapshot, `apiClient` constructed
against the configured base URL reading any persisted token. -/
def initWorld (st : LocalStorage) : World :=
  { auth := initialAuthState,
    client := ApiClient.make API_BASE_URL st,
    storage := st }

/-- The spec invariant: `isAuthenticated` equals `user != null`. -/
def authInv (w : World) : Bool :=
  w.auth.isAuthenticated == w.auth.user.isSome

/-- Whether an awaited client call counts as a success for the store
(`response.data` present), i.e. the inner fetch returned 2xx. -/
def netSuccess {α : Type} : NetOracle α → Bool
  | .fetch (.ok _) => true
  | _ => false

/-- Whether an operation is an `updateProfile` whose call succeeds. -/
def isUpdateProfileSuccess : Op → Bool
  | .updateProfile o => netSuccess o
  | _ => false

/-- A run is safe when no successful `updateProfile` is ever executed from
an unauthenticated state. -/
def safeRun (w : World) : List Op → Bool
  | [] => true
  | op :: rest =>
      (!(isUpdateProfileSuccess op && !w.auth.isAuthenticated))
        && safeRun (step w op) rest

/-- A concrete user record for witnesses and counterexamples. -/
def sampleUser : User :=
  { id := 1, username := "alice", email := "alice@example.com",
    first_name := "Alice", last_name := "A", full_name := "Alice A",
    avatar := none, bio := none, date_joined := "2024-01-01", created_at := "2024-01-01" }

/-- A concrete successful auth response body. -/
def sampleAuthResponse : AuthResponse :=
  { user := sampleUser, tokens := { access := "tok1", refresh := "tok2" } }

theorem find?_removeItem (st : LocalStorage) (k : String) :
    (removeItem st k).find? (fun p => p.1 == k) = none := by
  rw [List.find?_eq_none]
  intro x hx
  have hmem := List.mem_filter.mp hx
  simpa using hmem.2

theorem getItem_removeItem_self (st : LocalStorage) (k : String) :
    getItem (removeItem st k) k = none := by
  unfold getItem
  rw [find?_removeItem]
  rfl

theorem find?_filter_of_imp {α : Type} (l : List α) (f q : α → Bool)
    (h : ∀ x, q x = true → f x = true) :
    (l.filter f).find? q = l.find? q := by
  induction l with
  | nil => rfl
  | cons a t ih =>
      rw [List.filter_cons]
      by_cases hf : f a = true
      · rw [if_pos hf]
        by_cases hq : q a = true
        · rw [List.find?_cons_of_pos _ hq, List.find?_cons_of_pos _ hq]
        · rw [List.find?_cons_of_neg, List.find?_cons_of_neg, ih] <;> simp [hq]
      · rw [if_neg hf]
        have hq : q a = false := by
          cases hqa : q a
          · rfl
          · exact absurd (h a hqa) hf
        rw [ih, List.find?_cons_of_neg]
        simp [hq]

theorem getItem_removeItem_other (st : LocalStorage) (k k2 : String) (h : k2 ≠ k) :
    getItem (removeItem st k) k2 = getItem st k2 := by
  unfold getItem removeItem
  rw [find?_filter_of_imp]
  intro x hx
  rw [beq_iff_eq] at hx
  rw [Bool.not_eq_true', beq_eq_false_iff_ne, hx]
  exact h

theorem getItem_setItem_self (st : LocalStorage) (k v : String) :
    getItem (setItem st k v) k = some v := by
  unfold setItem getItem
  rw [List.find?_append, find?_removeItem]
  simp [List.find?]

theorem request_frame {α : Type} (c : ApiClient) (st : LocalStorage)
    (o : FetchOutcome α) :
    (ApiClient.request c st o).client = c ∧ (ApiClient.request c st o).storage = st := by
  cases o <;> exact ⟨rfl, rfl⟩

theorem login_resp (c : ApiClient) (st : LocalStorage)
    (o : FetchOutcome AuthResponse) :
    (ApiClient.login c st o).resp = (ApiClient.request c st o).resp := by
  unfold ApiClient.login
  cases o with
  | ok d =>
      by_cases h : (d.tokens.access == "") = true
      · simp [ApiClient.request, h]
      · simp only [Bool.not_eq_true] at h
        simp [ApiClient.request, h]
  | notOk status message error detail => rfl
  | throws => rfl

/-- C4: `logout()` always terminates with `user == null`,
`isAuthenticated == false`, `error == null` and `isLoading == false`,
regardless of whether the remote logout call succeeds, returns an error
result, or throws. -/
theorem c4_logout_always_clears (w : World) (o : NetOracle Unit) :
    (AuthStore.logout w o).auth.user = none ∧
    (AuthStore.logout w o).auth.isAuthenticated = false ∧
    (AuthStore.logout w o).auth.error = none ∧
    (AuthStore.logout w o).auth.isLoading = false := by
  cases o <;>
    simp [AuthStore.logout, AuthStore.logoutStart, AuthStore.authClearedState]

/-- C5 (counterexample): a non-2xx body whose only populated field is
`detail` yields the generic fallback message, not the detail text — the
request primitive never reads the `detail` field, contrary to the claim. -/
theorem c5_counterexample :
    (ApiClient.request { baseURL := API_BASE_URL, token := none } []
        (FetchOutcome.notOk 400 none none (some "Invalid credentials")
          : FetchOutcome User)).resp.error = some "An error occurred" ∧
    (ApiClient.request { baseURL := API_BASE_URL, token := none } []
        (FetchOutcome.notOk 400 none none (some "Invalid credentials")
          : FetchOutcome User)).resp.error ≠ some "Invalid credentials" := by
  decide

/-- C5 (amended): the request primitive never throws — every outcome yields
a tagged result where `data` is absent exactly when `error` is present.  On
a non-2xx response the message comes from the body `message` field, else its
`error` field, else the fixed fallback "An error occurred"; the `detail`
field is ignored.  Every transport-level exception yields the single message
"Network error occurred", with no distinction between a "cannot reach
server" failure and other failures. -/
theorem c5_request_error_normalization (c : ApiClient) (st : LocalStorage) :
    (∀ o : FetchOutcome User,
      ((ApiClient.request c st o).resp.data = none
        ↔ (ApiClient.request c st o).resp.error.isSome = true)) ∧
    (∀ (status : Nat) (message error d1 d2 : Option String),
      ApiClient.request c st (FetchOutcome.notOk status message error d1
          : FetchOutcome User)
        = ApiClient.request c st (FetchOutcome.notOk status message error d2)) ∧
    (∀ (status : Nat) (message error detail : Option String),
      (ApiClient.request c st (FetchOutcome.notOk status message error detail
          : FetchOutcome User)).resp.error
        = some (jsStrOr message (jsStrOr error "An error occurred"))) ∧
    (ApiClient.request c st (FetchOutcome.throws : FetchOutcome User)).resp.error
      = some "Network error occurred" := by
  refine ⟨?_, ?_, ?_, rfl⟩
  · intro o
    cases o <;> simp [ApiClient.request]
  · intro _ _ _ _ _
    rfl
  · intro _ _ _ _
    rfl

/-- C2 (counterexample): a request hitting HTTP 401 does not clear the
stored Credential Token — afterwards the in-memory token and durable storage
still hold it, and a following `loadUser` does issue a network call. -/
theorem c2_counterexample :
    (ApiClient.request { baseURL := API_BASE_URL, token := some "tok1" }
        [("access_token", "tok1")]
        (FetchOutcome.notOk 401 none none none : FetchOutcome User)).client.token
      = some "tok1" ∧
    getItem (ApiClient.request { baseURL := API_BASE_URL, token := some "tok1" }
        [("access_token", "tok1")]
        (FetchOutcome.notOk 401 none none none : FetchOutcome User)).storage
        "access_token"
      = some "tok1" ∧
    (AuthStore.loadUser
        { auth := initialAuthState,
          client := { baseURL := API_BASE_URL, token := some "tok1" },
          storage := [("access_token", "tok1")] }
        (NetOracle.fetch (FetchOutcome.notOk 401 none none none))).2 = 1 := by
  decide

/-- C2 (amended): the request primitive never clears the stored Credential
Token: for every endpoint outcome, including an HTTP 401 response, it leaves
the client in-memory token and durable storage unchanged; consequently a
following `loadUser` still finds the stored token and issues a network
call. -/
theorem c2_request_keeps_token_on_401 {α : Type} (c : ApiClient)
    (st : LocalStorage) (o : FetchOutcome α) :
    (ApiClient.request c st o).client = c ∧
    (ApiClient.request c st o).storage = st ∧
    (∀ (w : World) (o2 : NetOracle User),
      jsTruthy (getItem w.storage "access_token") = true →
      (AuthStore.loadUser w o2).2 = 1) := by
  refine ⟨(request_frame c st o).1, (request_frame c st o).2, ?_⟩
  intro w o2 htok
  cases o2 with
  | fetch fo =>
      cases fo <;>
        simp [AuthStore.loadUser, ApiClient.getProfile, ApiClient.request, htok]
  | throws e =>
      simp [AuthStore.loadUser, htok]

theorem c2_request_keeps_token_on_401_witness :
    (ApiClient.request { baseURL := API_BASE_URL, token := some "tok9" } []
        (FetchOutcome.notOk 401 none none none : FetchOutcome User)).client
      = { baseURL := API_BASE_URL, token := some "tok9" } ∧
    (AuthStore.loadUser
        { auth := initialAuthState,
          client := { baseURL := API_BASE_URL, token := some "tok9" },
          storage := [("access_token", "tok9")] }
        (NetOracle.throws { responseDataError := none, message := none })).2 = 1 :=
  ⟨(c2_request_keeps_token_on_401 { baseURL := API_BASE_URL, token := some "tok9" }
      [] (FetchOutcome.notOk 401 none none none : FetchOutcome User)).1,
   (c2_request_keeps_token_on_401 { baseURL := API_BASE_URL, token := some "tok9" }
      [] (FetchOutcome.notOk 401 none none none : FetchOutcome User)).2.2
      _ _ (by decide)⟩

/-- C3 (counterexample): after a successful register response carrying
access token "tok1", the client holds no token at all and durable storage
still has no `access_token` key. -/
theorem c3_counterexample :
    (ApiClient.register { baseURL := API_BASE_URL, token := none } []
        (FetchOutcome.ok sampleAuthResponse)).client.token = none ∧
    getItem (ApiClient.register { baseURL := API_BASE_URL, token := none } []
        (FetchOutcome.ok sampleAuthResponse)).storage "access_token" = none := by
  decide

/-- C3 (amended): the Credential Token is stored (in memory and in durable
storage) on a successful login response with a nonempty access token, but
only by `login`: `register` never stores a token — it leaves the client and
durable storage unchanged for every outcome. -/
theorem c3_token_stored_on_login_only (c : ApiClient) (st : LocalStorage) :
    (∀ d : AuthResponse, d.tokens.access ≠ "" →
      (ApiClient.login c st (FetchOutcome.ok d)).client.token
        = some d.tokens.access ∧
      getItem (ApiClient.login c st (FetchOutcome.ok d)).storage "access_token"
        = some d.tokens.access) ∧
    (∀ o : FetchOutcome AuthResponse,
      (ApiClient.register c st o).client = c ∧
      (ApiClient.register c st o).storage = st) := by
  constructor
  · intro d hd
    have hb : (d.tokens.access == "") = false := beq_eq_false_iff_ne.mpr hd
    constructor
    · simp [ApiClient.login, ApiClient.request, hb, ApiClient.setToken]
    · simp [ApiClient.login, ApiClient.request, hb, ApiClient.setToken,
        getItem_setItem_self]
  · intro o
    exact request_frame c st o

theorem c3_token_stored_on_login_only_witness :
    (ApiClient.login { baseURL := API_BASE_URL, token := none } []
        (FetchOutcome.ok sampleAuthResponse)).client.token = some "tok1" :=
  ((c3_token_stored_on_login_only { baseURL := API_BASE_URL, token := none }
      []).1 sampleAuthResponse (by decide)).1

theorem authInv_step (w : World) (op : Op) (hw : authInv w = true)
    (hop : (isUpdateProfileSuccess op && !w.auth.isAuthenticated) = false) :
    authInv (step w op) = true := by
  simp only [authInv, beq_iff_eq] at hw
  cases op with
  | login o =>
      cases o with
      | fetch fo =>
          cases fo <;>
            simp [step, AuthStore.login, login_resp, ApiClient.request,
              AuthStore.authSuccessState, AuthStore.authFailureState,
              AuthStore.loginStart, authInv, hw]
      | throws e =>
          simp [step, AuthStore.login, AuthStore.authFailureState,
            AuthStore.loginStart, authInv, hw]
  | register o =>
      cases o with
      | fetch fo =>
          cases fo <;>
            simp [step, AuthStore.register, ApiClient.register, ApiClient.request,
              AuthStore.authSuccessState, AuthStore.authFailureState,
              AuthStore.registerStart, authInv, hw]
      | throws e =>
          simp [step, AuthStore.register, AuthStore.authFailureState,
            AuthStore.registerStart, authInv, hw]
  | logout o =>
      cases o <;>
        simp [step, AuthStore.logout, AuthStore.logoutStart,
          AuthStore.authClearedState, authInv]
  | loadUser o =>
      by_cases htok : jsTruthy (getItem w.storage "access_token") = true
      · cases o with
        | fetch fo =>
            cases fo <;>
              simp [step, AuthStore.loadUser, ApiClient.getProfile,
                ApiClient.request, AuthStore.authSuccessState,
                AuthStore.authClearedState, AuthStore.loadUserStart, authInv, htok]
        | throws e =>
            simp [step, AuthStore.loadUser, AuthStore.authClearedState,
              AuthStore.loadUserStart, authInv, htok]
      · simp only [Bool.not_eq_true] at htok
        simp [step, AuthStore.loadUser, AuthStore.authClearedState, authInv, htok]
  | updateProfile o =>
      cases o with
      | fetch fo =>
          cases fo with
          | ok u =>
              simp only [isUpdateProfileSuccess, netSuccess, Bool.true_and] at hop
              have hauth : w.auth.isAuthenticated = true := by
                cases hval : w.auth.isAuthenticated
                · rw [hval] at hop
                  simp at hop
                · rfl
              simp [step, AuthStore.updateProfile, ApiClient.updateProfile,
                ApiClient.request, AuthStore.updateProfileStart, authInv, hauth]
          | notOk status message error detail =>
              simp [step, AuthStore.updateProfile, ApiClient.updateProfile,
                ApiClient.request, AuthStore.authFailureState,
                AuthStore.updateProfileStart, authInv, hw]
          | throws =>
              simp [step, AuthStore.updateProfile, ApiClient.updateProfile,
                ApiClient.request, AuthStore.authFailureState,
                AuthStore.updateProfileStart, authInv, hw]
      | throws e =>
          simp [step, AuthStore.updateProfile, AuthStore.authFailureState,
            AuthStore.updateProfileStart, authInv, hw]
  | clearError =>
      simp [step, AuthStore.clearError, authInv, hw]

theorem authInv_run (ops : List Op) : ∀ (w : World), authInv w = true →
    safeRun w ops = true → authInv (run w ops) = true := by
  induction ops with
  | nil =>
      intro w hw _
      exact hw
  | cons op rest ih =>
      intro w hw hs
      simp only [safeRun, Bool.and_eq_true, Bool.not_eq_true'] at hs
      exact ih (step w op) (authInv_step w op hw hs.1) hs.2

/-- C1 (counterexample): a successful `updateProfile` performed from the
initial unauthenticated state settles (isLoading == false) with a non-null
user while `isAuthenticated` is still false, so the claimed invariant fails
on this operation sequence. -/
theorem c1_counterexample :
    (run (initWorld [])
        [Op.updateProfile (NetOracle.fetch (FetchOutcome.ok sampleUser))]).auth.isLoading
      = false ∧
    (run (initWorld [])
        [Op.updateProfile (NetOracle.fetch (FetchOutcome.ok sampleUser))]).auth.user
      = some sampleUser ∧
    (run (initWorld [])
        [Op.updateProfile (NetOracle.fetch (FetchOutcome.ok sampleUser))]).auth.isAuthenticated
      = false := by
  decide

/-- C1 (amended): for every sequence of Session Store operations in which no
successful `updateProfile` is executed from an unauthenticated state, every
settled state satisfies `isAuthenticated == (user != null)`.  The original
claim fails exactly at a successful `updateProfile` from an unauthenticated
state, which sets `user` without touching `isAuthenticated`. -/
theorem c1_settled_auth_invariant (st : LocalStorage) (ops : List Op)
    (h : safeRun (initWorld st) ops = true) :
    authInv (run (initWorld st) ops) = true := by
  apply authInv_run ops (initWorld st) _ h
  rfl

theorem c1_settled_auth_invariant_witness :
    safeRun (initWorld [])
        [Op.login (NetOracle.fetch (FetchOutcome.ok sampleAuthResponse)),
         Op.updateProfile (NetOracle.fetch (FetchOutcome.ok sampleUser)),
         Op.logout (NetOracle.fetch FetchOutcome.throws)] = true ∧
    authInv (run (initWorld [])
        [Op.login (NetOracle.fetch (FetchOutcome.ok sampleAuthResponse)),
         Op.updateProfile (NetOracle.fetch (FetchOutcome.ok sampleUser)),
         Op.logout (NetOracle.fetch FetchOutcome.throws)]) = true :=
  ⟨by decide,
   c1_settled_auth_invariant []
     [Op.login (NetOracle.fetch (FetchOutcome.ok sampleAuthResponse)),
      Op.updateProfile (NetOracle.fetch (FetchOutcome.ok sampleUser)),
      Op.logout (NetOracle.fetch FetchOutcome.throws)] (by decide)⟩

theorem getItem_clearedTokens_access (st : LocalStorage) :
    getItem (removeItem (removeItem st "access_token") "refresh_token")
      "access_token" = none := by
  rw [getItem_removeItem_other _ _ _ (by decide), getItem_removeItem_self]

theorem getItem_clearedTokens_refresh (st : LocalStorage) :
    getItem (removeItem (removeItem st "access_token") "refresh_token")
      "refresh_token" = none := by
  rw [getItem_removeItem_self]

/-- C6: `loadUser()` with a stored (truthy) token whose profile fetch fails
— a non-2xx response such as a 401, or a transport error — removes both the
`access_token` and `refresh_token` keys from durable storage and settles
with `user == null`, `isAuthenticated == false` and `isLoading == false`. -/
theorem c6_loadUser_failure_clears_tokens (w : World) (o : NetOracle User)
    (htok : jsTruthy (getItem w.storage "access_token") = true)
    (hfail : netSuccess o = false) :
    getItem (AuthStore.loadUser w o).1.storage "access_token" = none ∧
    getItem (AuthStore.loadUser w o).1.storage "refresh_token" = none ∧
    (AuthStore.loadUser w o).1.auth.user = none ∧
    (AuthStore.loadUser w o).1.auth.isAuthenticated = false ∧
    (AuthStore.loadUser w o).1.auth.isLoading = false := by
  cases o with
  | fetch fo =>
      cases fo with
      | ok u => simp [netSuccess] at hfail
      | notOk status message error detail =>
          refine ⟨?_, ?_, ?_, ?_, ?_⟩ <;>
            simp [AuthStore.loadUser, ApiClient.getProfile, ApiClient.request,
              AuthStore.authClearedState, AuthStore.loadUserStart, htok,
              getItem_clearedTokens_access, getItem_clearedTokens_refresh]
      | throws =>
          refine ⟨?_, ?_, ?_, ?_, ?_⟩ <;>
            simp [AuthStore.loadUser, ApiClient.getProfile, ApiClient.request,
              AuthStore.authClearedState, AuthStore.loadUserStart, htok,
              getItem_clearedTokens_access, getItem_clearedTokens_refresh]
  | throws e =>
      refine ⟨?_, ?_, ?_, ?_, ?_⟩ <;>
        simp [AuthStore.loadUser, AuthStore.authClearedState,
          AuthStore.loadUserStart, htok,
          getItem_clearedTokens_access, getItem_clearedTokens_refresh]

/-- A concrete authenticated world holding both token keys, for witnesses. -/
def tokenWorld : World :=
  { auth := { user := some sampleUser, isAuthenticated := true,
              isLoading := false, error := none },
    client := { baseURL := API_BASE_URL, token := some "tok1" },
    storage := [("access_token", "tok1"), ("refresh_token", "tok2")] }

theorem c6_loadUser_failure_clears_tokens_witness :
    jsTruthy (getItem tokenWorld.storage "access_token") = true ∧
    netSuccess (NetOracle.fetch (FetchOutcome.notOk 401 none none none)
        : NetOracle User) = false ∧
    getItem (AuthStore.loadUser tokenWorld
        (NetOracle.fetch (FetchOutcome.notOk 401 none none none))).1.storage
        "access_token" = none ∧
    (AuthStore.loadUser tokenWorld
        (NetOracle.fetch (FetchOutcome.notOk 401 none none none))).1.auth.isAuthenticated
      = false :=
  ⟨by decide, by decide,
   (c6_loadUser_failure_clears_tokens tokenWorld
      (NetOracle.fetch (FetchOutcome.notOk 401 none none none))
      (by decide) (by decide)).1,
   (c6_loadUser_failure_clears_tokens tokenWorld
      (NetOracle.fetch (FetchOutcome.notOk 401 none none none))
      (by decide) (by decide)).2.2.2.1⟩

/-- C7: `loadUser()` with no Credential Token in durable storage issues no
network call and settles immediately with `isAuthenticated == false`,
`user == null` and `isLoading == false`, leaving client and storage
untouched. -/
theorem c7_loadUser_no_token (w : World) (o : NetOracle User)
    (h : getItem w.storage "access_token" = none) :
    (AuthStore.loadUser w o).2 = 0 ∧
    (AuthStore.loadUser w o).1.auth.user = none ∧
    (AuthStore.loadUser w o).1.auth.isAuthenticated = false ∧
    (AuthStore.loadUser w o).1.auth.isLoading = false ∧
    (AuthStore.loadUser w o).1.client = w.client ∧
    (AuthStore.loadUser w o).1.storage = w.storage := by
  have htok : jsTruthy (getItem w.storage "access_token") = false := by
    rw [h]
    rfl
  refine ⟨?_, ?_, ?_, ?_, ?_, ?_⟩ <;>
    simp [AuthStore.loadUser, AuthStore.authClearedState, htok]

theorem c7_loadUser_no_token_witness :
    getItem ((initWorld []).storage) "access_token" = none ∧
    (AuthStore.loadUser (initWorld [])
        (NetOracle.fetch (FetchOutcome.ok sampleUser))).2 = 0 ∧
    (AuthStore.loadUser (initWorld [])
        (NetOracle.fetch (FetchOutcome.ok sampleUser))).1.auth.isAuthenticated
      = false :=
  ⟨by decide,
   (c7_loadUser_no_token (initWorld [])
      (NetOracle.fetch (FetchOutcome.ok sampleUser)) (by decide)).1,
   (c7_loadUser_no_token (initWorld [])
      (NetOracle.fetch (FetchOutcome.ok sampleUser)) (by decide)).2.2.1⟩

/-- An auth snapshot carrying a leftover error message from a previous
failed operation, for the C8 counterexample. -/
def erroredAuthState : AuthState :=
  { user := none, isAuthenticated := false, isLoading := false,
    error := some "previous failure" }

/-- C8 (counterexample): the first state mutation of `logout` keeps a
previous error message, and a `loadUser` call with no stored token settles
while still holding the previous error — neither operation sets `error` to
null in its first mutation, contrary to the claim. -/
theorem c8_counterexample :
    (AuthStore.logoutStart erroredAuthState).error = some "previous failure" ∧
    (AuthStore.loadUser
        { auth := erroredAuthState,
          client := { baseURL := API_BASE_URL, token := none },
          storage := [] }
        (NetOracle.fetch (FetchOutcome.ok sampleUser))).1.auth.error
      = some "previous failure" := by
  decide

/-- C8 (amended): `login`, `register` and `updateProfile` set `error` to
null in their first state mutation; `logout` and `loadUser` leave `error`
unchanged at their start (`logout` clears it only in its final unconditional
mutation, and the no-token path of `loadUser` never clears it). -/
theorem c8_error_cleared_at_start (s : AuthState) :
    (AuthStore.loginStart s).error = none ∧
    (AuthStore.registerStart s).error = none ∧
    (AuthStore.updateProfileStart s).error = none ∧
    (AuthStore.logoutStart s).error = s.error ∧
    (AuthStore.loadUserStart s).error = s.error :=
  ⟨rfl, rfl, rfl, rfl, rfl⟩

/-- C9: a `login` or `register` call that fails — business-logic failure
(no user in the response) or a thrown exception — leaves `user` and
`isAuthenticated` exactly as they were before the call and returns false;
in particular a previously authenticated session stays authenticated after
a failed re-login. -/
theorem c9_failed_login_register_frame (w : World) (o : NetOracle AuthResponse)
    (h : netSuccess o = false) :
    (AuthStore.login w o).1.auth.user = w.auth.user ∧
    (AuthStore.login w o).1.auth.isAuthenticated = w.auth.isAuthenticated ∧
    (AuthStore.login w o).2 = false ∧
    (AuthStore.register w o).1.auth.user = w.auth.user ∧
    (AuthStore.register w o).1.auth.isAuthenticated = w.auth.isAuthenticated ∧
    (AuthStore.register w o).2 = false := by
  cases o with
  | fetch fo =>
      cases fo with
      | ok d => simp [netSuccess] at h
      | notOk status message error detail =>
          refine ⟨?_, ?_, ?_, ?_, ?_, ?_⟩ <;>
            simp [AuthStore.login, AuthStore.register, login_resp,
              ApiClient.register, ApiClient.request, AuthStore.authFailureState,
              AuthStore.loginStart, AuthStore.registerStart]
      | throws =>
          refine ⟨?_, ?_, ?_, ?_, ?_, ?_⟩ <;>
            simp [AuthStore.login, AuthStore.register, login_resp,
              ApiClient.register, ApiClient.request, AuthStore.authFailureState,
              AuthStore.loginStart, AuthStore.registerStart]
  | throws e =>
      refine ⟨?_, ?_, ?_, ?_, ?_, ?_⟩ <;>
        simp [AuthStore.login, AuthStore.register, AuthStore.authFailureState,
          AuthStore.loginStart, AuthStore.registerStart]

theorem c9_failed_login_register_frame_witness :
    netSuccess (NetOracle.fetch (FetchOutcome.notOk 400 none
        (some "Invalid credentials") none) : NetOracle AuthResponse) = false ∧
    (AuthStore.login tokenWorld
        (NetOracle.fetch (FetchOutcome.notOk 400 none
          (some "Invalid credentials") none))).1.auth.isAuthenticated = true ∧
    (AuthStore.login tokenWorld
        (NetOracle.fetch (FetchOutcome.notOk 400 none
          (some "Invalid credentials") none))).1.auth.user = some sampleUser :=
  ⟨by decide,
   Eq.trans
     ((c9_failed_login_register_frame tokenWorld
        (NetOracle.fetch (FetchOutcome.notOk 400 none
          (some "Invalid credentials") none)) (by decide)).2.1)
     (by decide),
   Eq.trans
     ((c9_failed_login_register_frame tokenWorld
        (NetOracle.fetch (FetchOutcome.notOk 400 none
          (some "Invalid credentials") none)) (by decide)).1)
     (by decide)⟩

theorem request_authHeader {α : Type} (c : ApiClient) (st : LocalStorage)
    (o : FetchOutcome α) (t : String) (hc : c.token = some t) (ht : t ≠ "") :
    (ApiClient.request c st o).authHeader = some ("Bearer " ++ t) := by
  have hb : (t == "") = false := beq_eq_false_iff_ne.mpr ht
  cases o <;> simp [ApiClient.request, hc, hb]

/-- C10: the failure path of `loadUser` removes both token keys from
durable storage but does not clear the in-memory token of the API client,
so every subsequent request still attaches an `Authorization: Bearer`
header carrying the stale token even though durable storage holds none. -/
theorem c10_stale_memory_token (w : World) (o : NetOracle User) (t : String)
    (htok : jsTruthy (getItem w.storage "access_token") = true)
    (hfail : netSuccess o = false)
    (hmem : w.client.token = some t) (ht : t ≠ "") :
    getItem (AuthStore.loadUser w o).1.storage "access_token" = none ∧
    getItem (AuthStore.loadUser w o).1.storage "refresh_token" = none ∧
    (AuthStore.loadUser w o).1.client.token = some t ∧
    (∀ o2 : FetchOutcome User,
      (ApiClient.request (AuthStore.loadUser w o).1.client
          (AuthStore.loadUser w o).1.storage o2).authHeader
        = some ("Bearer " ++ t)) := by
  have hcl : (AuthStore.loadUser w o).1.client = w.client := by
    cases o with
    | fetch fo =>
        cases fo with
        | ok u => simp [netSuccess] at hfail
        | notOk status message error detail =>
            simp [AuthStore.loadUser, ApiClient.getProfile, ApiClient.request, htok]
        | throws =>
            simp [AuthStore.loadUser, ApiClient.getProfile, ApiClient.request, htok]
    | throws e =>
        simp [AuthStore.loadUser, htok]
  have hst : (AuthStore.loadUser w o).1.storage
      = removeItem (removeItem w.storage "access_token") "refresh_token" := by
    cases o with
    | fetch fo =>
        cases fo with
        | ok u => simp [netSuccess] at hfail
        | notOk status message error detail =>
            simp [AuthStore.loadUser, ApiClient.getProfile, ApiClient.request, htok]
        | throws =>
            simp [AuthStore.loadUser, ApiClient.getProfile, ApiClient.request, htok]
    | throws e =>
        simp [AuthStore.loadUser, htok]
  refine ⟨?_, ?_, ?_, ?_⟩
  · rw [hst]
    exact getItem_clearedTokens_access w.storage
  · rw [hst]
    exact getItem_clearedTokens_refresh w.storage
  · rw [hcl]
    exact hmem
  · intro o2
    rw [hcl]
    exact request_authHeader w.client _ o2 t hmem ht

theorem c10_stale_memory_token_witness :
    (AuthStore.loadUser tokenWorld
        (NetOracle.fetch (FetchOutcome.notOk 401 none none none))).1.client.token
      = some "tok1" ∧
    (ApiClient.request
        (AuthStore.loadUser tokenWorld
          (NetOracle.fetch (FetchOutcome.notOk 401 none none none))).1.client
        (AuthStore.loadUser tokenWorld
          (NetOracle.fetch (FetchOutcome.notOk 401 none none none))).1.storage
        (FetchOutcome.notOk 401 none none none : FetchOutcome User)).authHeader
      = some ("Bearer " ++ "tok1") :=
  ⟨(c10_stale_memory_token tokenWorld
      (NetOracle.fetch (FetchOutcome.notOk 401 none none none)) "tok1"
      (by decide) (by decide) (by decide) (by decide)).2.2.1,
   (c10_stale_memory_token tokenWorld
      (NetOracle.fetch (FetchOutcome.notOk 401 none none none)) "tok1"
      (by decide) (by decide) (by decide) (by decide)).2.2.2
      (FetchOutcome.notOk 401 none none none)⟩
